import Mathlib

/-!
Shallow embedding of the ehrshot-benchmark repository (python sources under
ehrshot/) and proofs about it.

Sources embedded:
* ehrshot/serialization/text_encoder.py
* ehrshot/4_generate_llm_features.py
* ehrshot/run_experiments.py
* ehrshot/7_make_results_plots.py

Python strings are modelled as `List Char`, numpy float arrays as lists of
rationals (`List ℚ` and `List (List ℚ)`): the claims under study are about
data plumbing (alignment, shapes, control flow), not about rounding of
IEEE-754 operations.
-/

namespace TextEncoderSrc

/-- Python `s.strip(".")`: remove every leading and trailing `.` character. -/
def stripDots (s : List Char) : List Char :=
  ((s.dropWhile (fun c => c = '.')).reverse.dropWhile (fun c => c = '.')).reverse

/-- text_encoder.py, `llm2vec_instruction`:
if `len(instruction) > 0 and instruction[-1] != ":"` then
`instruction = instruction.strip(".") + ":"`; return `instruction`. -/
def llm2vec_instruction (instruction : List Char) : List Char :=
  if instruction ≠ [] ∧ instruction.getLast? ≠ some ':' then
    stripDots instruction ++ [':']
  else
    instruction

/-- The python encoder classes in text_encoder.py, identified by their
constructor arguments: BioClinicalBert carries its handle_long_texts kwarg
(default "truncate"), LongformerLargeEncoder its biomedical kwarg
(default False). -/
inductive EncoderKind where
  | llm2vecLlama3_7B
  | llm2vecLlama3_1_7B
  | gteQwen2_7B
  | stGTELargeENv15
  | bioClinicalBert (handle_long_texts : String)
  | longformerLarge (biomedical : Bool)
  deriving DecidableEq, Repr

/-- The embedding_size each encoder class passes to LLMEncoder.__init__. -/
def embedding_size : EncoderKind → Nat
  | .llm2vecLlama3_7B => 4096
  | .llm2vecLlama3_1_7B => 4096
  | .gteQwen2_7B => 3584
  | .stGTELargeENv15 => 1024
  | .bioClinicalBert _ => 768
  | .longformerLarge _ => 1024

/-- A python value that text_encoder.py passes as one element of the inputs
list of _encode: either a plain string, or the two-element list
[instruction, text] built by the llm2vec encoders. -/
inductive PyInput where
  | str (s : List Char)
  | pair (instruction text : List Char)
  deriving DecidableEq, Repr

/-- The per-class add_instruction methods. Instructions may be None
(modelled as none). A None instruction reaching the llm2vec classes would
raise a TypeError in python (len(None)); that branch is unreachable in the
claims below and is modelled as the empty instruction. -/
def add_instruction : EncoderKind → Option (List Char) → List Char → PyInput
  | .llm2vecLlama3_7B, some i, t => .pair (llm2vec_instruction i) t
  | .llm2vecLlama3_7B, none, t => .pair (llm2vec_instruction []) t
  | .llm2vecLlama3_1_7B, some i, t => .pair (llm2vec_instruction i) t
  | .llm2vecLlama3_1_7B, none, t => .pair (llm2vec_instruction []) t
  | .gteQwen2_7B, some i, t =>
      if i ≠ [] then .str ("Instruct: ".data ++ i ++ "\nQuery: ".data ++ t)
      else .str t
  | .gteQwen2_7B, none, t => .str t
  | .stGTELargeENv15, _, t => .str t
  | .bioClinicalBert _, _, t => .str t
  | .longformerLarge _, _, t => .str t

/-- Python test `instruction is None or len(instruction) == 0`. -/
def isEmptyInstr : Option (List Char) → Bool
  | none => true
  | some s => s.isEmpty

/-- What TextEncoder.encode_texts passes as the first argument of
self.encoder._encode: either the prepared inputs list, or — in the
explicit-batch_size branch of the source — the python builtin function
named input. -/
inductive EncodeArg where
  | inputsList (l : List PyInput)
  | builtinInput
  deriving DecidableEq, Repr

/-- The call encode_texts makes to _encode: its first argument and the
batch_size it forwards (none means _encode runs with its default). -/
structure EncodeCall where
  arg : EncodeArg
  batch_size : Option Nat
  deriving DecidableEq, Repr

/-- text_encoder.py, TextEncoder.encode_texts (lines 242-251): builds
inputs from instructions and texts, then calls _encode. In the
batch_size branch the source reads self.encoder._encode(input, batch_size):
the name input there is the python builtin, not the local inputs. -/
def encode_texts (kind : EncoderKind) (instructions : List (Option (List Char)))
    (texts : List (List Char)) (batch_size : Option Nat) : EncodeCall :=
  let inputs : List PyInput :=
    if instructions.all isEmptyInstr then texts.map PyInput.str
    else (instructions.zip texts).map fun p => add_instruction kind p.1 p.2
  match batch_size with
  | none => { arg := .inputsList inputs, batch_size := none }
  | some b => { arg := .builtinInput, batch_size := some b }

/-! ### BioClinicalBert chunking (text_encoder.py lines 176-213)

The tokenizer and the transformer forward pass are third-party neural
components; they enter the model as opaque functions. get_first_last_avg
_embedding maps one chunk text to one embedding vector. -/

/-- Opaque pieces of BioClinicalBert: the wordpiece tokenizer, its inverse
convert_tokens_to_string, and the per-text embedding produced by
get_first_last_avg_embedding. -/
structure BertOps where
  tokenize : List Char → List (List Char)
  convert_tokens_to_string : List (List Char) → List Char
  embed : List Char → List ℚ

/-- tokens[i:i+(n+1)] for i in range(0, len(tokens), n+1): consecutive
chunks of at most n+1 elements. Instantiated with n+1 = 512 below. -/
def chunksOfSucc (n : Nat) : List α → List (List α)
  | [] => []
  | x :: xs => (x :: xs.take n) :: chunksOfSucc n (xs.drop n)
termination_by l => l.length
decreasing_by simp only [List.length_drop, List.length_cons]; omega

/-- The chunks of one text: tokenize, slice into groups of
max_length = 512 tokens, convert each group back to a string. -/
def textChunks (B : BertOps) (t : List Char) : List (List Char) :=
  (chunksOfSucc 511 (B.tokenize t)).map B.convert_tokens_to_string

/-- BioClinicalBert.chunk_texts: all chunks of all texts (all_chunks,
accumulated with extend) and the per-text chunk counts. -/
def chunk_texts (B : BertOps) (texts : List (List Char)) :
    List (List Char) × List Nat :=
  (texts.flatMap (textChunks B), texts.map fun t => (textChunks B t).length)

/-- np.mean of a list of vectors along axis 0: componentwise sum. -/
def vecSum : List (List ℚ) → List ℚ
  | [] => []
  | [v] => v
  | v :: w :: vs => List.zipWith (fun a b => a + b) v (vecSum (w :: vs))

/-- np.mean of a list of vectors along axis 0. -/
def vecMean (l : List (List ℚ)) : List ℚ :=
  (vecSum l).map fun a => a / (l.length : ℚ)

/-- The averaging loop of _encode in average_chunks mode: walk chunk_counts,
slice all_embeddings[start_idx : start_idx+count], take np.mean along
axis 0, advance start_idx. -/
def averageChunkEmbeddings : List Nat → List (List ℚ) → List (List ℚ)
  | [], _ => []
  | c :: cs, embs => vecMean (embs.take c) :: averageChunkEmbeddings cs (embs.drop c)

/-- BioClinicalBert._encode: reject unknown handle_long_texts values; in
average_chunks mode chunk the inputs, embed every chunk, then average each
text's chunk embeddings; in truncate mode embed the inputs directly (the
tokenizer truncation is part of the opaque embed). -/
def bioBert_encode (B : BertOps) (handle_long_texts : String)
    (inputs : List (List Char)) : Except String (List (List ℚ)) :=
  if handle_long_texts = "truncate" ∨ handle_long_texts = "average_chunks" then
    if handle_long_texts = "average_chunks" then
      let chunked := chunk_texts B inputs
      let all_embeddings := chunked.1.map B.embed
      Except.ok (averageChunkEmbeddings chunked.2 all_embeddings)
    else
      Except.ok (inputs.map B.embed)
  else
    Except.error "handle_long_texts must be truncate or average_chunks"

/-- A concrete instantiation of BertOps for evaluating the chunking
pipeline on small inputs: one token per character, convert_tokens_to_string
concatenates, and the embedding of a chunk is the one-entry vector holding
its length. -/
def demoBert : BertOps where
  tokenize := fun s => s.map fun c => [c]
  convert_tokens_to_string := List.flatten
  embed := fun s => [(s.length : ℚ)]

end TextEncoderSrc

namespace GenFeaturesSrc

open TextEncoderSrc

/-- ehrshot/4_generate_llm_features.py lines 34-51: the if/elif chain over
args.text_encoder. It runs before anything else in the script (directly
after argument parsing); on an unrecognized name the ValueError aborts the
run before any further processing. -/
def selectTextEncoder (name : String) : Except String EncoderKind :=
  if name = "llm2vec_llama3_7b_instruct_supervised" then
    Except.ok EncoderKind.llm2vecLlama3_7B
  else if name = "llm2vec_llama3_1_7b_instruct_supervised" then
    Except.ok EncoderKind.llm2vecLlama3_1_7B
  else if name = "gteqwen2_7b_instruct" then
    Except.ok EncoderKind.gteQwen2_7B
  else if name = "st_gte_large_en_v15" then
    Except.ok EncoderKind.stGTELargeENv15
  else if name = "bioclinicalbert-fl" then
    Except.ok (EncoderKind.bioClinicalBert "truncate")
  else if name = "bioclinicalbert-fl-average-chunks" then
    Except.ok (EncoderKind.bioClinicalBert "average_chunks")
  else if name = "longformerlarge-fl" then
    Except.ok (EncoderKind.longformerLarge false)
  else if name = "biomedicallongformerlarge-fl" then
    Except.ok (EncoderKind.longformerLarge true)
  else
    Except.error ("Text encoder `" ++ name ++ "` not recognized")

/-- The eight names the if/elif chain recognizes. -/
def recognizedEncoderNames : List String :=
  ["llm2vec_llama3_7b_instruct_supervised",
   "llm2vec_llama3_1_7b_instruct_supervised",
   "gteqwen2_7b_instruct",
   "st_gte_large_en_v15",
   "bioclinicalbert-fl",
   "bioclinicalbert-fl-average-chunks",
   "longformerlarge-fl",
   "biomedicallongformerlarge-fl"]

/-! ### np.allclose and the final assert/save of the script -/

/-- np.allclose default relative tolerance 1e-05. -/
def rtol : ℚ := 1 / 100000

/-- np.allclose default absolute tolerance 1e-08. -/
def atol : ℚ := 1 / 100000000

/-- One entry of np.allclose(a, b): absolute(a - b) <= atol + rtol * absolute(b). -/
def allcloseEntry (a b : ℚ) : Bool :=
  |a - b| ≤ atol + rtol * |b|

/-- np.allclose on one pair of rows (equal shape required). -/
def allcloseRow (a b : List ℚ) : Bool :=
  a.length == b.length && (List.zipWith allcloseEntry a b).all id

/-- np.allclose on two matrices: equal shape and every entry within
atol + rtol * absolute(reference). -/
def allclose (A B : List (List ℚ)) : Bool :=
  A.length == B.length && (List.zipWith allcloseRow A B).all id

/-- The components of the results tuple the script unpacks at indices
0..4 (lines 82-88): featurize_llm_featurizer returns
(feature_matrix, patient_ids, label_values, label_times, label_tasks). -/
structure FeaturizeResults where
  feature_matrix : List (List ℚ)
  patient_ids : List Nat
  label_values : List Int
  label_times : List Nat
  label_tasks : List String
  deriving DecidableEq, Repr

/-- One component of a pickled python tuple. -/
inductive PyObj where
  | matrix (m : List (List ℚ))
  | ids (l : List Nat)
  | values (l : List Int)
  | times (l : List Nat)
  | tasks (l : List String)
  deriving DecidableEq, Repr

/-- pickle.dump(results, f): the artifact is the whole results tuple, in
component order. -/
def pickledObject (r : FeaturizeResults) : List PyObj :=
  [PyObj.matrix r.feature_matrix, PyObj.ids r.patient_ids,
   PyObj.values r.label_values, PyObj.times r.label_times,
   PyObj.tasks r.label_tasks]

/-- The artifact as the spec describes it: only the 4-tuple
(features, patient_ids, label_values, label_times). Stated from the spec's
words, for comparison with pickledObject, which follows the source. -/
def specClaimedArtifact (r : FeaturizeResults) : List PyObj :=
  [PyObj.matrix r.feature_matrix, PyObj.ids r.patient_ids,
   PyObj.values r.label_values, PyObj.times r.label_times]

/-- Outcome of the script tail (lines 91-97): the assert either raises
AssertionError, or the run proceeds to pickle the results. -/
inductive ScriptOutcome where
  | assertionError
  | saved (artifact : List PyObj)
  deriving DecidableEq, Repr

/-- Lines 91-97 of the script: assert np.allclose(llm_featurizer.embeddings,
feature_matrix), then pickle.dump(results, f). -/
def scriptFinalize (embeddings : List (List ℚ)) (results : FeaturizeResults) :
    ScriptOutcome :=
  if allclose embeddings results.feature_matrix then
    ScriptOutcome.saved (pickledObject results)
  else
    ScriptOutcome.assertionError

/-! ### The LLM featurizer

preprocess_llm_featurizer, LLMFeaturizer.encode_serializations and
featurize_llm_featurizer live in ehrshot/llm_featurizer.py, which is not
among the sources here; only this script calls them. They are modelled from
the spec below. -/

/-- The number of labels across all loaded patients, where patients map to
lists of (label datetime, task) pairs as in load_labeled_patients_with_tasks
(datetimes modelled as naturals). -/
def numLabels (p2l : List (Nat × List (Nat × String))) : Nat :=
  (p2l.map fun p => p.2.length).sum

/-- Modelled from the spec: the LLMFeaturizer built by
preprocess_llm_featurizer and filled by encode_serializations (both in the
missing llm_featurizer.py). It keeps one flattened (patient, time, task)
label per row and one embedding row of width embedding_size per label. -/
structure LLMFeaturizer where
  embedding_size : Nat
  labels : List (Nat × Nat × String)
  embeddings : List (List ℚ)

/-- Modelled from the spec: preprocess_llm_featurizer plus
encode_serializations serialize each patient's record up to each label's
prediction time and encode one text per label; encodeRow abstracts
serialization followed by the text encoder, one row per
(patient, time, task) label, in patient order. -/
def preprocess_llm_featurizer (p2l : List (Nat × List (Nat × String)))
    (embSize : Nat) (encodeRow : Nat × Nat × String → List ℚ) : LLMFeaturizer :=
  let labels := p2l.flatMap fun p => p.2.map fun l => (p.1, l.1, l.2)
  { embedding_size := embSize
    labels := labels
    embeddings := labels.map encodeRow }

/-- Modelled from the spec: featurize_llm_featurizer "only performs serial
copying of embeddings" (script comment): it copies the featurizer's
embeddings into the final feature matrix and returns them aligned with the
label metadata; valueOf abstracts the stored label values. -/
def featurize_llm_featurizer (F : LLMFeaturizer)
    (valueOf : Nat × Nat × String → Int) : FeaturizeResults :=
  { feature_matrix := F.embeddings
    patient_ids := F.labels.map fun l => l.1
    label_values := F.labels.map valueOf
    label_times := F.labels.map fun l => l.2.1
    label_tasks := F.labels.map fun l => l.2.2 }

end GenFeaturesSrc

namespace RunExperimentsSrc

/-- A UTF-8 continuation byte: 0x80..0xBF. -/
def isCont (b : Nat) : Bool :=
  128 ≤ b && b ≤ 191

/-- UTF-8 validity of a byte sequence (what python's strict
bytes.decode("utf-8") accepts: no overlong encodings, no surrogates,
code points up to U+10FFFF), with a fuel argument for structural
recursion; fuel at least the list length suffices. -/
def utf8ValidAux : Nat → List Nat → Bool
  | _, [] => true
  | 0, _ :: _ => false
  | fuel + 1, b :: rest =>
    if b ≤ 127 then
      utf8ValidAux fuel rest
    else if 194 ≤ b && b ≤ 223 then
      match rest with
      | c1 :: r => isCont c1 && utf8ValidAux fuel r
      | [] => false
    else if b = 224 then
      match rest with
      | c1 :: c2 :: r => (160 ≤ c1 && c1 ≤ 191) && isCont c2 && utf8ValidAux fuel r
      | _ => false
    else if (225 ≤ b && b ≤ 236) || b = 238 || b = 239 then
      match rest with
      | c1 :: c2 :: r => isCont c1 && isCont c2 && utf8ValidAux fuel r
      | _ => false
    else if b = 237 then
      match rest with
      | c1 :: c2 :: r => (128 ≤ c1 && c1 ≤ 159) && isCont c2 && utf8ValidAux fuel r
      | _ => false
    else if b = 240 then
      match rest with
      | c1 :: c2 :: c3 :: r =>
          (144 ≤ c1 && c1 ≤ 191) && isCont c2 && isCont c3 && utf8ValidAux fuel r
      | _ => false
    else if 241 ≤ b && b ≤ 243 then
      match rest with
      | c1 :: c2 :: c3 :: r =>
          isCont c1 && isCont c2 && isCont c3 && utf8ValidAux fuel r
      | _ => false
    else if b = 244 then
      match rest with
      | c1 :: c2 :: c3 :: r =>
          (128 ≤ c1 && c1 ≤ 143) && isCont c2 && isCont c3 && utf8ValidAux fuel r
      | _ => false
    else
      false

/-- UTF-8 validity of a byte sequence. -/
def utf8Valid (bytes : List Nat) : Bool :=
  utf8ValidAux bytes.length bytes

/-- The outcome of the subprocess started by run_command: its return code,
raw stdout bytes and stderr. stderr is modelled as already-decoded text
(its own decode step is oblique to the claims below). -/
structure ProcResult where
  returncode : Int
  stdout : List Nat
  stderr : String
  deriving DecidableEq, Repr

/-- What calling run_command can do: raise (with the raised message), or
return the stdout bytes. -/
inductive RunOutcome where
  | raised (message : String)
  | returned (stdout : List Nat)
  deriving DecidableEq, Repr

/-- run_experiments.py, run_command (lines 10-18): if the return code is
nonzero, raise Exception with a message built around stderr; otherwise
print(stdout.decode("utf-8")) — which raises UnicodeDecodeError when
stdout is not valid UTF-8 — and then return the stdout bytes. -/
def run_command (res : ProcResult) : RunOutcome :=
  if res.returncode ≠ 0 then
    RunOutcome.raised ("Command failed with error: " ++ res.stderr)
  else if utf8Valid res.stdout then
    RunOutcome.returned res.stdout
  else
    RunOutcome.raised "UnicodeDecodeError"

/-- Whether a run_command outcome is an exception. -/
def RunOutcome.isRaised : RunOutcome → Bool
  | .raised _ => true
  | .returned _ => false

end RunExperimentsSrc

namespace ResultsPlotsSrc

/-- One row of the concatenated results dataframe of
7_make_results_plots.py (the columns the tables use). -/
structure Row where
  labeling_function : String
  sub_task : String
  model : String
  head : String
  score : String
  k : Int
  value : ℚ
  deriving DecidableEq, Repr

/-- The groupby key of lines 156-187:
(labeling_function, sub_task, model, head, score, k). -/
structure GroupKey where
  labeling_function : String
  sub_task : String
  model : String
  head : String
  score : String
  k : Int
  deriving DecidableEq, Repr

/-- The group a row belongs to. -/
def Row.key (r : Row) : GroupKey :=
  ⟨r.labeling_function, r.sub_task, r.model, r.head, r.score, r.k⟩

/-- The distinct group keys of a dataframe. pandas emits groups in sorted
key order; the tables below are keyed associatively, so first-occurrence
order is used, which changes nothing the claims depend on. -/
def groupKeys (df : List Row) : List GroupKey :=
  (df.map Row.key).dedup

/-- The 'value' entries of one group. -/
def groupValues (df : List Row) (g : GroupKey) : List ℚ :=
  (df.filter fun r => decide (Row.key r = g)).map Row.value

/-- pandas mean aggregation: arithmetic mean. -/
def mean (xs : List ℚ) : ℚ :=
  xs.sum / (xs.length : ℚ)

/-- The numerator-of-std: pandas sample variance (ddof = 1). -/
def sampleVar (xs : List ℚ) : ℚ :=
  (xs.map fun x => (x - mean xs) ^ 2).sum / ((xs.length : ℚ) - 1)

/-- pandas std aggregation (ddof = 1): undefined (NaN, modelled none) on
groups with fewer than two entries. -/
noncomputable def stdRaw (xs : List ℚ) : Option ℝ :=
  if xs.length ≤ 1 then none else some (Real.sqrt (sampleVar xs))

/-- The mean column of df_means for one group. -/
def meanTable (df : List Row) (g : GroupKey) : ℚ :=
  mean (groupValues df g)

/-- The value column of df_stds for one group, before fillna. -/
noncomputable def stdTable (df : List Row) (g : GroupKey) : Option ℝ :=
  stdRaw (groupValues df g)

/-- The value column of df_stds after .fillna(0) (line 187): NaN becomes 0.
df_['std'] = df_std_['value'] then aligns each group's std with its mean by
the shared dataframe index, which is the same group enumeration on both
sides. -/
noncomputable def stdFilled (df : List Row) (g : GroupKey) : ℝ :=
  (stdTable df g).getD 0

/-- The two numbers of one pretty cell "mean ± std" (the printed strings
round both to 3 decimals, which does not affect the claims here). -/
noncomputable def prettyCell (df : List Row) (g : GroupKey) : ℚ × ℝ :=
  (meanTable df g, stdFilled df g)

/-- The groups that land in the per-task table of one (sub_task, score):
the filter of lines 197-199. -/
def taskKeys (df : List Row) (st sc : String) : List GroupKey :=
  (groupKeys df).filter fun g => decide (g.sub_task = st ∧ g.score = sc)

/-- The pivot index of line 207: the distinct (model, head) pairs. -/
def pivotIndex (keys : List GroupKey) : List (String × String) :=
  (keys.map fun g => (g.model, g.head)).dedup

/-- The pivot columns of line 207: the distinct shot counts k. -/
def pivotCols (keys : List GroupKey) : List Int :=
  (keys.map fun g => g.k).dedup

end ResultsPlotsSrc

/-! ## Helper theorems -/

namespace TextEncoderSrc

theorem getLast?_append_singleton (l : List Char) (c : Char) :
    (l ++ [c]).getLast? = some c := by
  induction l with
  | nil => rfl
  | cons x xs ih =>
      cases xs with
      | nil => rfl
      | cons y ys => simpa using ih

theorem llm2vec_instruction_ends_colon (s : List Char) (hs : s ≠ []) :
    (llm2vec_instruction s).getLast? = some ':' := by
  unfold llm2vec_instruction
  by_cases h : s.getLast? = some ':'
  · rw [if_neg (fun hc => hc.2 h)]; exact h
  · rw [if_pos ⟨hs, h⟩]
    exact getLast?_append_singleton _ _

theorem llm2vec_instruction_nonempty (s : List Char) (hs : s ≠ []) :
    llm2vec_instruction s ≠ [] := by
  intro hnil
  have h := llm2vec_instruction_ends_colon s hs
  rw [hnil] at h
  exact Option.noConfusion h

theorem chunksOfSucc_flatten (n : Nat) (l : List α) :
    (chunksOfSucc n l).flatten = l := by
  induction l using chunksOfSucc.induct n with
  | case1 => simp [chunksOfSucc]
  | case2 x xs ih =>
      rw [chunksOfSucc]
      simp only [List.flatten_cons, ih, List.cons_append, List.take_append_drop]

theorem chunksOfSucc_length_le (n : Nat) (l : List α) :
    ∀ c ∈ chunksOfSucc n l, c.length ≤ n + 1 := by
  induction l using chunksOfSucc.induct n with
  | case1 => intro c hc; simp [chunksOfSucc] at hc
  | case2 x xs ih =>
      intro c hc
      rw [chunksOfSucc] at hc
      rcases List.mem_cons.mp hc with hc | hc
      · subst hc
        simp only [List.length_cons]
        have := List.length_take_le n xs
        omega
      · exact ih c hc

theorem averageChunkEmbeddings_flat (emb : List Char → List ℚ)
    (f : List Char → List (List Char)) (texts : List (List Char)) :
    averageChunkEmbeddings (texts.map fun t => (f t).length)
        ((texts.flatMap f).map emb)
      = texts.map fun t => vecMean ((f t).map emb) := by
  induction texts with
  | nil => rfl
  | cons t ts ih =>
      simp only [List.map_cons, List.flatMap_cons, List.map_append,
        averageChunkEmbeddings]
      have hlen : (f t).length = ((f t).map emb).length :=
        (List.length_map _ _).symm
      rw [hlen, List.take_left, List.drop_left, ih]

end TextEncoderSrc

namespace GenFeaturesSrc

theorem preprocess_labels_length (p2l : List (Nat × List (Nat × String)))
    (embSize : Nat) (encodeRow : Nat × Nat × String → List ℚ) :
    (preprocess_llm_featurizer p2l embSize encodeRow).labels.length
      = numLabels p2l := by
  simp only [preprocess_llm_featurizer, numLabels, List.length_flatMap]
  congr 1
  apply List.map_congr_left
  intro p _
  simp

theorem allcloseEntry_refl (a : ℚ) : allcloseEntry a a = true := by
  simp only [allcloseEntry, decide_eq_true_eq]
  have h1 : |a - a| = 0 := by simp
  have h2 : (0:ℚ) < atol := by norm_num [atol]
  have h3 : (0:ℚ) ≤ rtol * |a| := by
    have := abs_nonneg a
    have : (0:ℚ) ≤ rtol := by norm_num [rtol]
    positivity
  rw [h1]
  linarith

theorem allclose_refl (A : List (List ℚ)) : allclose A A = true := by
  simp only [allclose, Bool.and_eq_true, beq_iff_eq, List.all_eq_true]
  refine ⟨by simp, ?_⟩
  intro b hb
  have : ∀ r : List ℚ, allcloseRow r r = true := by
    intro r
    simp only [allcloseRow, Bool.and_eq_true, beq_iff_eq, List.all_eq_true]
    refine ⟨by simp, ?_⟩
    intro x hx
    induction r with
    | nil => simp at hx
    | cons y ys ih =>
        simp only [List.zipWith_cons_cons, List.mem_cons] at hx
        rcases hx with hx | hx
        · subst hx; exact allcloseEntry_refl y
        · exact ih hx
  induction A with
  | nil => simp at hb
  | cons r rs ih =>
      simp only [List.zipWith_cons_cons, List.mem_cons] at hb
      rcases hb with hb | hb
      · subst hb; exact this r
      · exact ih hb

end GenFeaturesSrc

namespace ResultsPlotsSrc

theorem groupValues_ne_nil (df : List Row) (g : GroupKey)
    (hg : g ∈ groupKeys df) : groupValues df g ≠ [] := by
  rw [groupKeys, List.mem_dedup, List.mem_map] at hg
  obtain ⟨r, hr, hk⟩ := hg
  have hmem : r ∈ df.filter fun r => decide (Row.key r = g) :=
    List.mem_filter.mpr ⟨hr, by simp [hk]⟩
  intro hnil
  rw [groupValues, List.map_eq_nil_iff] at hnil
  rw [hnil] at hmem
  exact List.not_mem_nil r hmem

end ResultsPlotsSrc

namespace TextEncoderSrc

theorem llm2vec_instruction_nil : llm2vec_instruction [] = [] := by
  unfold llm2vec_instruction
  rw [if_neg]
  intro h
  exact h.1 rfl

theorem llm2vec_instruction_of_ends_colon (u : List Char)
    (hu : u.getLast? = some ':') : llm2vec_instruction u = u := by
  unfold llm2vec_instruction
  rw [if_neg]
  intro h
  exact h.2 hu

end TextEncoderSrc

/-! ## Claim theorems -/

open TextEncoderSrc GenFeaturesSrc RunExperimentsSrc ResultsPlotsSrc

/-- Claim C8: llm2vec_instruction is idempotent; every non-empty input is
mapped to a string ending in ':' (the ':' being appended to the dot-stripped
string whenever the input does not already end in ':'), and the empty
string is returned unchanged. -/
theorem claim_C8_llm2vec_instruction :
    (∀ s : List Char,
        llm2vec_instruction (llm2vec_instruction s) = llm2vec_instruction s) ∧
    (∀ s : List Char, s ≠ [] →
        (llm2vec_instruction s).getLast? = some ':') ∧
    (∀ s : List Char, s ≠ [] → s.getLast? ≠ some ':' →
        llm2vec_instruction s = stripDots s ++ [':']) ∧
    llm2vec_instruction [] = [] := by
  refine ⟨?_, llm2vec_instruction_ends_colon, ?_, llm2vec_instruction_nil⟩
  · intro s
    by_cases hs : s = []
    · subst hs
      rw [llm2vec_instruction_nil, llm2vec_instruction_nil]
    · exact llm2vec_instruction_of_ends_colon _
        (llm2vec_instruction_ends_colon s hs)
  · intro s hs hcol
    unfold llm2vec_instruction
    rw [if_pos ⟨hs, hcol⟩]

/-- Claim C8 witness: the behaviour at the concrete input "a.". -/
theorem claim_C8_llm2vec_instruction_witness :
    (llm2vec_instruction (llm2vec_instruction ['a', '.'])
        = llm2vec_instruction ['a', '.']) ∧
    (llm2vec_instruction ['a', '.']).getLast? = some ':' ∧
    llm2vec_instruction ['a', '.'] = stripDots ['a', '.'] ++ [':'] :=
  ⟨claim_C8_llm2vec_instruction.1 ['a', '.'],
   claim_C8_llm2vec_instruction.2.1 ['a', '.'] (by decide),
   claim_C8_llm2vec_instruction.2.2.1 ['a', '.'] (by decide) (by decide)⟩

/-- Claim C2 (code bug witness): when an explicit batch_size is supplied,
TextEncoder.encode_texts passes the python builtin input to _encode instead
of the prepared inputs list, so the supplied texts are not the ones encoded;
with batch_size None it passes exactly the supplied texts. -/
theorem claim_C2_batch_size_passes_builtin :
    (encode_texts EncoderKind.stGTELargeENv15 [none, none] [['a'], ['b']]
        (some 2)).arg = EncodeArg.builtinInput ∧
    EncodeArg.builtinInput
        ≠ EncodeArg.inputsList [PyInput.str ['a'], PyInput.str ['b']] ∧
    (encode_texts EncoderKind.stGTELargeENv15 [none, none] [['a'], ['b']]
        none).arg = EncodeArg.inputsList [PyInput.str ['a'], PyInput.str ['b']]
    := by decide

/-- Claim C5: the --text_encoder dispatch maps each of the eight recognized
names to its encoder (each exposing its embedding_size) and raises a
ValueError for every other string, before any further processing. -/
theorem claim_C5_encoder_dispatch :
    (selectTextEncoder "llm2vec_llama3_7b_instruct_supervised"
          = Except.ok EncoderKind.llm2vecLlama3_7B ∧
      embedding_size EncoderKind.llm2vecLlama3_7B = 4096 ∧
      selectTextEncoder "llm2vec_llama3_1_7b_instruct_supervised"
          = Except.ok EncoderKind.llm2vecLlama3_1_7B ∧
      embedding_size EncoderKind.llm2vecLlama3_1_7B = 4096 ∧
      selectTextEncoder "gteqwen2_7b_instruct"
          = Except.ok EncoderKind.gteQwen2_7B ∧
      embedding_size EncoderKind.gteQwen2_7B = 3584 ∧
      selectTextEncoder "st_gte_large_en_v15"
          = Except.ok EncoderKind.stGTELargeENv15 ∧
      embedding_size EncoderKind.stGTELargeENv15 = 1024 ∧
      selectTextEncoder "bioclinicalbert-fl"
          = Except.ok (EncoderKind.bioClinicalBert "truncate") ∧
      embedding_size (EncoderKind.bioClinicalBert "truncate") = 768 ∧
      selectTextEncoder "bioclinicalbert-fl-average-chunks"
          = Except.ok (EncoderKind.bioClinicalBert "average_chunks") ∧
      embedding_size (EncoderKind.bioClinicalBert "average_chunks") = 768 ∧
      selectTextEncoder "longformerlarge-fl"
          = Except.ok (EncoderKind.longformerLarge false) ∧
      embedding_size (EncoderKind.longformerLarge false) = 1024 ∧
      selectTextEncoder "biomedicallongformerlarge-fl"
          = Except.ok (EncoderKind.longformerLarge true) ∧
      embedding_size (EncoderKind.longformerLarge true) = 1024) ∧
    (∀ name : String, name ∉ recognizedEncoderNames →
        selectTextEncoder name
          = Except.error ("Text encoder `" ++ name ++ "` not recognized")) := by
  constructor
  · exact ⟨rfl, rfl, rfl, rfl, rfl, rfl, rfl, rfl, rfl, rfl, rfl, rfl, rfl,
      rfl, rfl, rfl⟩
  · intro name h
    simp only [recognizedEncoderNames, List.mem_cons, List.not_mem_nil,
      or_false] at h
    push_neg at h
    obtain ⟨h1, h2, h3, h4, h5, h6, h7, h8⟩ := h
    unfold selectTextEncoder
    rw [if_neg h1, if_neg h2, if_neg h3, if_neg h4, if_neg h5, if_neg h6,
      if_neg h7, if_neg h8]

/-- Claim C5 witness: the unrecognized name "count" raises. -/
theorem claim_C5_encoder_dispatch_witness :
    selectTextEncoder "count"
      = Except.error ("Text encoder `" ++ "count" ++ "` not recognized") :=
  claim_C5_encoder_dispatch.2 "count" (by decide)

/-- Claim C4: in average_chunks mode, BioClinicalBert._encode splits each
text into consecutive chunks of at most 512 tokens, encodes all chunks, and
returns exactly one embedding per input text — the arithmetic mean of that
text's chunk embeddings — so the number of output rows equals the number
of input texts. -/
theorem claim_C4_average_chunks (B : BertOps) (texts : List (List Char))
    (res : List (List ℚ))
    (h : bioBert_encode B "average_chunks" texts = Except.ok res) :
    res = texts.map (fun t => vecMean ((textChunks B t).map B.embed)) ∧
    res.length = texts.length ∧
    (∀ t : List Char,
        (chunksOfSucc 511 (B.tokenize t)).flatten = B.tokenize t) ∧
    (∀ t : List Char, ∀ c ∈ chunksOfSucc 511 (B.tokenize t),
        c.length ≤ 512) := by
  unfold bioBert_encode at h
  rw [if_pos (Or.inr rfl), if_pos rfl] at h
  have hres : averageChunkEmbeddings
      (texts.map fun t => (textChunks B t).length)
      ((texts.flatMap (textChunks B)).map B.embed) = res := Except.ok.inj h
  have hmain : res = texts.map fun t => vecMean ((textChunks B t).map B.embed) := by
    rw [← hres]
    exact averageChunkEmbeddings_flat B.embed (textChunks B) texts
  refine ⟨hmain, ?_, ?_, ?_⟩
  · rw [hmain, List.length_map]
  · intro t
    exact chunksOfSucc_flatten 511 (B.tokenize t)
  · intro t c hc
    have := chunksOfSucc_length_le 511 (B.tokenize t) c hc
    omega

/-- Claim C4 witness: the pipeline evaluated on two concrete texts. -/
theorem claim_C4_average_chunks_witness :
    ([[(1:ℚ)], [(2:ℚ)]]
        = [['a'], ['b', 'c']].map
            (fun t => vecMean ((textChunks demoBert t).map demoBert.embed))) ∧
    ([[(1:ℚ)], [(2:ℚ)]].length = [['a'], ['b', 'c']].length) ∧
    (∀ t : List Char,
        (chunksOfSucc 511 (demoBert.tokenize t)).flatten
          = demoBert.tokenize t) ∧
    (∀ t : List Char, ∀ c ∈ chunksOfSucc 511 (demoBert.tokenize t),
        c.length ≤ 512) :=
  claim_C4_average_chunks demoBert [['a'], ['b', 'c']] [[1], [2]] (by
    unfold bioBert_encode
    rw [if_pos (Or.inr rfl), if_pos rfl]
    simp [chunk_texts, textChunks, chunksOfSucc, demoBert,
      averageChunkEmbeddings, vecMean, vecSum])

/-- Claim C1 counterexample: a run whose feature matrix differs from the
embedding cache (by 1e-9 in the only entry) still passes the
np.allclose assert and reaches the save step, so the comparison is not
exact floating-point equality. -/
theorem claim_C1_allclose_counterexample :
    scriptFinalize [[0]] ⟨[[1/1000000000]], [], [], [], []⟩
        = ScriptOutcome.saved
            (pickledObject ⟨[[1/1000000000]], [], [], [], []⟩) ∧
    [[(0:ℚ)]] ≠ [[1/1000000000]] := by
  constructor
  · unfold scriptFinalize
    rw [if_pos ?_]
    norm_num [allclose, allcloseRow, allcloseEntry, atol, rtol,
      abs_of_nonneg, abs_of_pos]
  · intro h
    have := List.head_eq_of_cons_eq (List.head_eq_of_cons_eq h)
    norm_num at this

/-- Claim C1 (amended): the script verifies the assembled feature matrix
against llm_featurizer.embeddings with np.allclose (default tolerances,
entrywise |a - b| <= 1e-8 + 1e-5 * |b|): the run reaches the save step
precisely when allclose holds, and exact equality is sufficient for that
but not necessary. -/
theorem claim_C1_allclose_gates_save (embeddings : List (List ℚ))
    (r : FeaturizeResults) :
    ((∃ a, scriptFinalize embeddings r = ScriptOutcome.saved a)
        ↔ allclose embeddings r.feature_matrix = true) ∧
    (embeddings = r.feature_matrix →
        scriptFinalize embeddings r
          = ScriptOutcome.saved (pickledObject r)) := by
  constructor
  · constructor
    · rintro ⟨a, ha⟩
      by_cases hc : allclose embeddings r.feature_matrix = true
      · exact hc
      · unfold scriptFinalize at ha
        rw [if_neg (by simpa using hc)] at ha
        exact absurd ha (by simp)
    · intro hc
      refine ⟨pickledObject r, ?_⟩
      unfold scriptFinalize
      rw [if_pos (by simpa using hc)]
  · intro heq
    unfold scriptFinalize
    rw [if_pos (by rw [heq]; simpa using allclose_refl r.feature_matrix)]

/-- Claim C1 witness: a run with exactly equal matrices reaches the save
step. -/
theorem claim_C1_allclose_gates_save_witness :
    scriptFinalize [[(1:ℚ)]] ⟨[[1]], [5], [0], [3], ["mortality"]⟩
      = ScriptOutcome.saved
          (pickledObject ⟨[[1]], [5], [0], [3], ["mortality"]⟩) :=
  (claim_C1_allclose_gates_save [[1]] ⟨[[1]], [5], [0], [3], ["mortality"]⟩).2
    rfl

/-- Claim C3 counterexample: the pickled artifact is not the 4-tuple the
spec names — it has five components, the fifth being label_tasks. -/
theorem claim_C3_four_tuple_counterexample :
    pickledObject ⟨[[2]], [9], [1], [4], ["task"]⟩
        ≠ specClaimedArtifact ⟨[[2]], [9], [1], [4], ["task"]⟩ ∧
    (pickledObject ⟨[[2]], [9], [1], [4], ["task"]⟩).length = 5 ∧
    (specClaimedArtifact ⟨[[2]], [9], [1], [4], ["task"]⟩).length = 4 := by
  decide

/-- Claim C3 (amended): the script persists, as a single pickled artifact,
exactly the whole results tuple (feature_matrix, patient_ids, label_values,
label_times, label_tasks) — the spec's 4-tuple plus label_tasks — and
nothing else. -/
theorem claim_C3_persists_results_tuple (embeddings : List (List ℚ))
    (r : FeaturizeResults) (a : List PyObj)
    (h : scriptFinalize embeddings r = ScriptOutcome.saved a) :
    a = [PyObj.matrix r.feature_matrix, PyObj.ids r.patient_ids,
         PyObj.values r.label_values, PyObj.times r.label_times,
         PyObj.tasks r.label_tasks] := by
  unfold scriptFinalize at h
  by_cases hc : allclose embeddings r.feature_matrix = true
  · rw [if_pos (by simpa using hc)] at h
    have := ScriptOutcome.saved.inj h
    rw [← this]
    rfl
  · rw [if_neg (by simpa using hc)] at h
    exact absurd h (by simp)

/-- Claim C3 witness: the artifact saved for a concrete run. -/
theorem claim_C3_persists_results_tuple_witness :
    pickledObject ⟨[[2]], [9], [1], [4], ["task"]⟩
      = [PyObj.matrix [[2]], PyObj.ids [9], PyObj.values [1],
         PyObj.times [4], PyObj.tasks ["task"]] :=
  claim_C3_persists_results_tuple [[2]] ⟨[[2]], [9], [1], [4], ["task"]⟩
    (pickledObject ⟨[[2]], [9], [1], [4], ["task"]⟩) (by
      unfold scriptFinalize
      rw [if_pos (allclose_refl [[2]])])

/-- Claim C6 (featurizer modelled from the spec): the produced feature
matrix has one row per label across all loaded patients and
embedding_size-many columns, and its rows are aligned positionally with
the persisted patient_ids and label_times. -/
theorem claim_C6_feature_matrix_shape (kind : EncoderKind)
    (p2l : List (Nat × List (Nat × String)))
    (encodeRow : Nat × Nat × String → List ℚ)
    (valueOf : Nat × Nat × String → Int)
    (F : LLMFeaturizer) (r : FeaturizeResults)
    (hrow : ∀ l, (encodeRow l).length = embedding_size kind)
    (hF : F = preprocess_llm_featurizer p2l (embedding_size kind) encodeRow)
    (hr : r = featurize_llm_featurizer F valueOf) :
    r.feature_matrix.length = numLabels p2l ∧
    (∀ row ∈ r.feature_matrix, row.length = embedding_size kind) ∧
    r.patient_ids.length = numLabels p2l ∧
    r.label_times.length = numLabels p2l ∧
    r.feature_matrix = F.labels.map encodeRow ∧
    r.patient_ids = F.labels.map (fun l => l.1) ∧
    r.label_times = F.labels.map (fun l => l.2.1) := by
  have hl := preprocess_labels_length p2l (embedding_size kind) encodeRow
  subst hF
  subst hr
  refine ⟨?_, ?_, ?_, ?_, rfl, rfl, rfl⟩
  · show ((preprocess_llm_featurizer p2l (embedding_size kind)
        encodeRow).labels.map encodeRow).length = numLabels p2l
    rw [List.length_map]
    exact hl
  · intro row hmem
    have : row ∈ (preprocess_llm_featurizer p2l (embedding_size kind)
        encodeRow).labels.map encodeRow := hmem
    rw [List.mem_map] at this
    obtain ⟨l, -, hlrow⟩ := this
    rw [← hlrow]
    exact hrow l
  · show ((preprocess_llm_featurizer p2l (embedding_size kind)
        encodeRow).labels.map fun l => l.1).length = numLabels p2l
    rw [List.length_map]
    exact hl
  · show ((preprocess_llm_featurizer p2l (embedding_size kind)
        encodeRow).labels.map fun l => l.2.1).length = numLabels p2l
    rw [List.length_map]
    exact hl

/-- Claim C6 witness: one patient with one label and the BioClinicalBert
embedding size. -/
theorem claim_C6_feature_matrix_shape_witness :
    (featurize_llm_featurizer
        (preprocess_llm_featurizer [(1, [(0, "mortality")])]
          (embedding_size (EncoderKind.bioClinicalBert "truncate"))
          (fun _ => List.replicate 768 0))
        (fun _ => 0)).feature_matrix.length
      = numLabels [(1, [(0, "mortality")])] :=
  (claim_C6_feature_matrix_shape (EncoderKind.bioClinicalBert "truncate")
    [(1, [(0, "mortality")])] (fun _ => List.replicate 768 0) (fun _ => 0)
    _ _ (fun _ => (List.length_replicate 768 (0:ℚ)).trans rfl) rfl rfl).1

/-- Claim C9 counterexample: a command with return code 0 whose stdout is
not valid UTF-8 (the single byte 0xFF) makes run_command raise
(UnicodeDecodeError in stdout.decode before the return), refuting "raises
iff the return code is nonzero". -/
theorem claim_C9_counterexample :
    (⟨0, [255], ""⟩ : ProcResult).returncode = 0 ∧
    (run_command ⟨0, [255], ""⟩).isRaised = true := by decide

/-- Claim C9 (amended): run_command raises exactly when the return code is
nonzero or the captured stdout is not valid UTF-8; on a nonzero return code
the exception message embeds the command's stderr, and on return code 0
with UTF-8 stdout it returns the captured stdout bytes. -/
theorem claim_C9_run_command (res : ProcResult) :
    ((run_command res).isRaised = true
        ↔ (res.returncode ≠ 0 ∨ utf8Valid res.stdout = false)) ∧
    (res.returncode ≠ 0 →
        run_command res
          = RunOutcome.raised ("Command failed with error: " ++ res.stderr)) ∧
    (res.returncode = 0 → utf8Valid res.stdout = true →
        run_command res = RunOutcome.returned res.stdout) := by
  refine ⟨?_, ?_, ?_⟩
  · constructor
    · intro hr
      by_cases h0 : res.returncode = 0
      · right
        by_cases hu : utf8Valid res.stdout = true
        · exfalso
          unfold run_command at hr
          rw [if_neg (by simpa using h0), if_pos hu] at hr
          simp [RunOutcome.isRaised] at hr
        · simpa using hu
      · left; exact h0
    · intro h
      rcases h with h | h
      · unfold run_command
        rw [if_pos h]
        rfl
      · unfold run_command
        by_cases h0 : res.returncode = 0
        · rw [if_neg (by simpa using h0), if_neg (by simp [h])]
          rfl
        · rw [if_pos h0]
          rfl
  · intro h
    unfold run_command
    rw [if_pos h]
  · intro h0 hu
    unfold run_command
    rw [if_neg (by simpa using h0), if_pos hu]

/-- Claim C9 witness: a failing command raises with its stderr in the
message; a succeeding command with UTF-8 stdout returns its bytes. -/
theorem claim_C9_run_command_witness :
    (run_command ⟨1, [], "boom"⟩
        = RunOutcome.raised ("Command failed with error: " ++ "boom")) ∧
    run_command ⟨0, [104, 105], ""⟩ = RunOutcome.returned [104, 105] :=
  ⟨(claim_C9_run_command ⟨1, [], "boom"⟩).2.1 (by decide),
   (claim_C9_run_command ⟨0, [104, 105], ""⟩).2.2 (by decide) (by decide)⟩

/-- Claim C7: the results tables group the concatenated results on
(labeling_function, sub_task, model, head, score, k); for every group the
per-task table reports the arithmetic mean of the group's value entries as
mean and their (sample) standard deviation as std, and the pivoted output
has one row per distinct (model, head) pair and one column per distinct
shot count k. -/
theorem claim_C7_aggregation (df : List Row) (g : GroupKey)
    (hg : g ∈ groupKeys df) :
    groupValues df g ≠ [] ∧
    meanTable df g
        = (groupValues df g).sum / ((groupValues df g).length : ℚ) ∧
    (2 ≤ (groupValues df g).length →
        stdTable df g = some (Real.sqrt (sampleVar (groupValues df g)))) ∧
    (pivotIndex (taskKeys df g.sub_task g.score)).Nodup ∧
    (∀ p : String × String,
        p ∈ pivotIndex (taskKeys df g.sub_task g.score)
          ↔ ∃ g2 ∈ taskKeys df g.sub_task g.score, (g2.model, g2.head) = p) ∧
    (pivotCols (taskKeys df g.sub_task g.score)).Nodup ∧
    (∀ kk : Int,
        kk ∈ pivotCols (taskKeys df g.sub_task g.score)
          ↔ ∃ g2 ∈ taskKeys df g.sub_task g.score, g2.k = kk) := by
  refine ⟨groupValues_ne_nil df g hg, rfl, ?_, List.nodup_dedup _, ?_,
    List.nodup_dedup _, ?_⟩
  · intro h2
    unfold stdTable stdRaw
    rw [if_neg (by omega)]
  · intro p
    unfold pivotIndex
    rw [List.mem_dedup, List.mem_map]
  · intro kk
    unfold pivotCols
    rw [List.mem_dedup, List.mem_map]

/-- Claim C7 witness: a group of two measurements with the same key. -/
theorem claim_C7_aggregation_witness :
    meanTable
        [⟨"lf", "st", "m", "h", "auroc", 1, 2⟩,
         ⟨"lf", "st", "m", "h", "auroc", 1, 4⟩]
        ⟨"lf", "st", "m", "h", "auroc", 1⟩
      = (groupValues
          [⟨"lf", "st", "m", "h", "auroc", 1, 2⟩,
           ⟨"lf", "st", "m", "h", "auroc", 1, 4⟩]
          ⟨"lf", "st", "m", "h", "auroc", 1⟩).sum
        / ((groupValues
            [⟨"lf", "st", "m", "h", "auroc", 1, 2⟩,
             ⟨"lf", "st", "m", "h", "auroc", 1, 4⟩]
            ⟨"lf", "st", "m", "h", "auroc", 1⟩).length : ℚ) :=
  (claim_C7_aggregation
    [⟨"lf", "st", "m", "h", "auroc", 1, 2⟩,
     ⟨"lf", "st", "m", "h", "auroc", 1, 4⟩]
    ⟨"lf", "st", "m", "h", "auroc", 1⟩ (by decide)).2.1

/-- Claim C10: a group with exactly one measurement has an undefined
(NaN) sample standard deviation, which fillna(0) reports as 0 in every
pretty mean-plus-minus-std cell. -/
theorem claim_C10_singleton_std_zero (df : List Row) (g : GroupKey)
    (_hg : g ∈ groupKeys df) (h1 : (groupValues df g).length = 1) :
    stdTable df g = none ∧ stdFilled df g = 0 ∧
    prettyCell df g = (meanTable df g, 0) := by
  have hnone : stdTable df g = none := by
    unfold stdTable stdRaw
    rw [if_pos (by omega)]
  have hf : stdFilled df g = 0 := by
    unfold stdFilled
    rw [hnone]
    rfl
  refine ⟨hnone, hf, ?_⟩
  unfold prettyCell
  rw [hf]

/-- Claim C10 witness: a dataframe with a single measurement in its only
group. -/
theorem claim_C10_singleton_std_zero_witness :
    stdTable [⟨"lf", "st", "m", "h", "auroc", 1, 3⟩]
        ⟨"lf", "st", "m", "h", "auroc", 1⟩ = none ∧
    stdFilled [⟨"lf", "st", "m", "h", "auroc", 1, 3⟩]
        ⟨"lf", "st", "m", "h", "auroc", 1⟩ = 0 :=
  ⟨(claim_C10_singleton_std_zero [⟨"lf", "st", "m", "h", "auroc", 1, 3⟩]
      ⟨"lf", "st", "m", "h", "auroc", 1⟩ (by decide) (by decide)).1,
   (claim_C10_singleton_std_zero [⟨"lf", "st", "m", "h", "auroc", 1, 3⟩]
      ⟨"lf", "st", "m", "h", "auroc", 1⟩ (by decide) (by decide)).2.1⟩
